import Mathlib

/-!
Verification of libtscb against its specification.

This file gives a shallow embedding of the parts of the libtscb event
reactor library that the checked claims are about:

* `src/src/eventflag.cc` — the `pipe_eventflag` primitive (`set`, `clear`,
  `start_waiting`, `stop_waiting`), modelled as a state machine over the
  atomic flag value, the waiter counter, and the number of bytes sitting
  in the control pipe; plus the syscall retry loops of `set` and `clear`.
* `src/src/ioready.cc` — `ioready_callback::modify` mask adjustment.
* `src/tscb/ioready-kqueue.cc` — `dispatch` / `dispatch_pending` of the
  kqueue dispatcher (the `max` clamp and the wakeup-flag handling).
* the deferred RW-lock and the async-safe work queue, whose
  implementations are not part of the sources at hand (only their tests
  and callers are); those are modelled from the specification text.

Machine integers are modelled as `Int`/`Nat`; all arithmetic involved
stays far away from any overflow boundary, so no modular reduction is
needed.  Fallible or crashing paths are modelled with `Option`.
-/

/-! ## Event flag: `pipe_eventflag` (src/src/eventflag.cc)

State of one `pipe_eventflag`: the atomic `flagged_` (an `int`, values
0/1/2), the atomic `waiting_` (an `int` counter of threads that called
`start_waiting`), and the number of bytes currently buffered in the
control pipe (`pipeBytes`; the real object holds the two pipe fds).
The operations below are the sequential semantics of the source: each
compare-exchange succeeds because no concurrent writer interferes. -/

structure PipeEventflag where
  flagged : Int
  waiting : Int
  pipeBytes : Nat
  deriving DecidableEq, Repr

/-- Embeds `pipe_eventflag::pipe_eventflag()` (eventflag.cc:27-39): members are
initialised as `flagged_(0), waiting_(0)`; a fresh pipe holds no bytes. -/
def PipeEventflag.mk0 : PipeEventflag :=
  { flagged := 0, waiting := 0, pipeBytes := 0 }

/-- Embeds `pipe_eventflag::set()` (eventflag.cc:47-83): return if `flagged_ != 0`;
CAS `flagged_` 0→1; return if `waiting_ == 0`; CAS `flagged_` 1→2 and
write one byte into the pipe. -/
def PipeEventflag.set (s : PipeEventflag) : PipeEventflag :=
  if s.flagged ≠ 0 then s
  else if s.waiting = 0 then { s with flagged := 1 }
  else { s with flagged := 2, pipeBytes := s.pipeBytes + 1 }

/-- Embeds `pipe_eventflag::start_waiting()` (eventflag.cc:85-89): `waiting_ += 1`. -/
def PipeEventflag.start_waiting (s : PipeEventflag) : PipeEventflag :=
  { s with waiting := s.waiting + 1 }

/-- Embeds `pipe_eventflag::stop_waiting()` (eventflag.cc:115-118): `waiting_ -= 1`. -/
def PipeEventflag.stop_waiting (s : PipeEventflag) : PipeEventflag :=
  { s with waiting := s.waiting - 1 }

/-- Embeds `pipe_eventflag::clear()` (eventflag.cc:120-145): return if
`flagged_ == 0`; otherwise swap `flagged_` down to 0; if the old value
was not 1 (i.e. it was 2), drain one byte from the pipe. -/
def PipeEventflag.clear (s : PipeEventflag) : PipeEventflag :=
  if s.flagged = 0 then s
  else if s.flagged = 1 then { s with flagged := 0 }
  else { s with flagged := 0, pipeBytes := s.pipeBytes - 1 }

/-- One step of the event-flag state machine: any of the four mutating
operations of `pipe_eventflag`. -/
inductive EfStep : PipeEventflag → PipeEventflag → Prop
  | set (s : PipeEventflag) : EfStep s s.set
  | clear (s : PipeEventflag) : EfStep s s.clear
  | start_waiting (s : PipeEventflag) : EfStep s s.start_waiting
  | stop_waiting (s : PipeEventflag) : EfStep s s.stop_waiting

/-- States of a `pipe_eventflag` reachable from a freshly constructed
flag by any sequence of `set`/`clear`/`start_waiting`/`stop_waiting`. -/
inductive EfReachable : PipeEventflag → Prop
  | init : EfReachable PipeEventflag.mk0
  | step {s t : PipeEventflag} : EfReachable s → EfStep s t → EfReachable t

/-! ## Syscall retry loops of `set` and `clear` (eventflag.cc:78-83,140-145)

The byte write in `set` and the byte read in `clear` are wrapped in
`do { res = ...; } while (res == -1 && errno == EAGAIN);`.  We model one
syscall attempt by its outcome (success, or failure with an errno) and
the loop by the outcome it finally stops on, given the sequence of
outcomes the successive attempts would produce. -/

inductive Errno where
  | EINTR
  | EAGAIN
  | EBADF
  deriving DecidableEq, Repr

inductive SyscallOutcome where
  | ok
  | err (e : Errno)
  deriving DecidableEq, Repr

/-- The retry loop shared by `pipe_eventflag::set` (eventflag.cc:80-82)
and `pipe_eventflag::clear` (eventflag.cc:142-144): repeat the syscall
while it returned `-1` with `errno == EAGAIN`; any other outcome — success
or failure with any other errno, `EINTR` included — ends the loop and is
the result the operation is left with.  `none` means the supplied attempt
trace was exhausted while the loop was still running. -/
def retryWhileEAGAIN : List SyscallOutcome → Option SyscallOutcome
  | [] => none
  | o :: rest =>
    if o = SyscallOutcome.err Errno.EAGAIN then retryWhileEAGAIN rest
    else some o

/-- What the specification asks of the same loop: retry while the syscall
was interrupted (`errno == EINTR`), so an interrupted attempt is never
surfaced. -/
def retryWhileEINTRspec : List SyscallOutcome → Option SyscallOutcome
  | [] => none
  | o :: rest =>
    if o = SyscallOutcome.err Errno.EINTR then retryWhileEINTRspec rest
    else some o

/-! ## `ioready_events` masks and `ioready_callback::modify`
(src/tscb/ioready.h:322-360, src/src/ioready.cc:32-43) -/

def ioready_none : Nat := 0
def ioready_input : Nat := 0x0001
def ioready_output : Nat := 0x0002
def ioready_error : Nat := 0x0100
def ioready_hangup : Nat := 0x0200

/-- The part of an `ioready_callback` link that `modify` touches: its
current `event_mask` and whether the `service_` back-pointer is still
non-null (the link is attached to a dispatcher). -/
structure IoreadyCallback where
  event_mask : Nat
  attached : Bool
  deriving DecidableEq, Repr

/-- Embeds `ioready_callback::modify(evmask)` (ioready.cc:32-43): if
`evmask != ioready_none`, it is replaced by
`evmask | ioready_error | ioready_hangup`; then, under the cancellation
mutex, if the service back-pointer is non-null, the service applies the
mask to the link (`modify_ioready_callback`, ioready-kqueue.cc:273-284,
does `link->event_mask = event_mask`); a detached link is unchanged. -/
def IoreadyCallback.modify (cb : IoreadyCallback) (evmask : Nat) : IoreadyCallback :=
  let evmask :=
    if evmask ≠ ioready_none then evmask ||| ioready_error ||| ioready_hangup
    else evmask
  if cb.attached then { cb with event_mask := evmask } else cb

/-! ## kqueue dispatcher: `dispatch` and `dispatch_pending`
(src/tscb/ioready-kqueue.cc:83-144)

Both calls clamp the caller-supplied `max` to 16, then ask `kevent` for
at most that many events.  `kevent` returns `min` of the events that are
actually ready (`avail`) and the given bound.  `dispatch` guards the
lazily created wakeup flag (`if (evflag == 0)` take the flag-less
branch); `dispatch_pending` calls `evflag->clear()` unconditionally, so
with a null `wakeup_flag` it dereferences a null pointer — modelled as
`none`. -/

/-- Embeds `if (max>16) max = 16;` (ioready-kqueue.cc:94 and 131). -/
def kqueueClampMax (max : Nat) : Nat := if max > 16 then 16 else max

/-- Embeds `ioready_dispatcher_kqueue::dispatch(timeout, max)`
(ioready-kqueue.cc:83-121): clamp `max` to 16; if no wakeup flag exists,
just `kevent` and process; otherwise `start_waiting`, `kevent`,
`stop_waiting`, process, and `clear` the flag.  Result: the number of
events retrieved and processed (the return value `nevents`), and the
wakeup flag's final state.  `avail` is the number of events the backend
has ready. -/
def kqueue_dispatch (wakeup : Option PipeEventflag) (avail max : Nat) :
    Nat × Option PipeEventflag :=
  let max := kqueueClampMax max
  let nevents := min avail max
  match wakeup with
  | none => (nevents, none)
  | some evflag => (nevents, some evflag.start_waiting.stop_waiting.clear)

/-- Embeds `ioready_dispatcher_kqueue::dispatch_pending(max)`
(ioready-kqueue.cc:123-144): clamp `max` to 16; `kevent` with a zero
timeout; process; then `evflag->clear()` with no null check — if the
wakeup flag was never created the call dereferences a null pointer
(`none`); otherwise return `nevents` and the cleared flag. -/
def kqueue_dispatch_pending (wakeup : Option PipeEventflag) (avail max : Nat) :
    Option (Nat × PipeEventflag) :=
  let max := kqueueClampMax max
  let nevents := min avail max
  match wakeup with
  | none => none
  | some evflag => some (nevents, evflag.clear)

/-! ## Deferred RW-lock

Modelled from the spec: the implementation of `tscb::deferred_rwlock`
(header `tscb/deferred`) is not among the sources at hand; only its unit
test (`src/testprogs/deferred.cc`) and callers are.  The model follows
spec sections 3 and 4.2: state is the `readers` counter, the `queued`
bit (a writer staged changes while readers existed), and the
`writer_active` bit (a synchronous writer holds the lock). -/

structure DeferredRwlock where
  readers : Nat
  queued : Bool
  writer_active : Bool
  deriving DecidableEq, Repr

/-- Modelled from the spec: a fresh `deferred_rwlock` has no readers, no
queued work and no active writer. -/
def DeferredRwlock.mk0 : DeferredRwlock :=
  { readers := 0, queued := false, writer_active := false }

/-- Modelled from the spec (4.2): `read_lock() → bool needs_sync`
increments `readers`; returns true if a prior writer staged work that is
now the current reader's responsibility — only the first entering reader
(the one that found `readers = 0`) can learn of queued work; under
normal usage it returns false. -/
def DeferredRwlock.read_lock (s : DeferredRwlock) : DeferredRwlock × Bool :=
  ({ s with readers := s.readers + 1 }, decide (s.readers = 0) && s.queued)

/-- Modelled from the spec (4.2): `read_unlock() → bool needs_sync`
decrements `readers`; returns true iff this was the last reader AND
queued work is pending (the caller then runs `synchronize()`). -/
def DeferredRwlock.read_unlock (s : DeferredRwlock) : DeferredRwlock × Bool :=
  ({ s with readers := s.readers - 1 }, decide (s.readers = 1) && s.queued)

/-- Modelled from the spec (4.2): `write_lock_async() → bool is_sync`
returns true iff there were no readers — the caller becomes the
synchronous writer and must call `sync_finished()` afterwards.  With
readers present it returns false; the writer stages its effect and calls
`write_unlock_async()`. -/
def DeferredRwlock.write_lock_async (s : DeferredRwlock) : DeferredRwlock × Bool :=
  if s.readers = 0 then ({ s with writer_active := true }, true)
  else (s, false)

/-- Modelled from the spec (4.2): `write_unlock_async()` sets the
`queued` bit. -/
def DeferredRwlock.write_unlock_async (s : DeferredRwlock) : DeferredRwlock :=
  { s with queued := true }

/-- Modelled from the spec (4.2): `sync_finished()` ends the commit
step: it drops the synchronous-writer bit, and the staged (queued) work
has been run by the `synchronize()` that precedes it. -/
def DeferredRwlock.sync_finished (s : DeferredRwlock) : DeferredRwlock :=
  { s with queued := false, writer_active := false }

/-! ## Async-safe work queue

Modelled from the spec: the implementation of
`tscb::async_safe_work_dispatcher` (header `tscb/async-safe-work`) is
not among the sources at hand; only its unit test
(`src/testprogs/async-work.cc`) is.  The model follows spec sections 3,
4.5 and 8.

A link (`async_safe_callback`) carries: whether it is still registered
with the dispatcher, its one-bit `activation_flag`, whether its user
callback throws when invoked (the test uses both a plain and a throwing
handler), its reference count (`refcount_`, created at 2: one reference
held by the connection handle, one by the dispatcher's chain), and how
often its callback has been invoked. -/

structure AsyncLink where
  registered : Bool
  activation : Bool
  throws : Bool
  refcount : Nat
  invoked : Nat
  deriving DecidableEq, Repr

/-- Dispatcher state: the links (addressed by index), the `pending` LIFO
chain of triggered links (head = most recently pushed), and the
dispatcher's event flag (told apart only as raised / not raised here;
the test drives a `pipe_eventflag`). -/
structure AsyncDispatcher where
  links : Nat → AsyncLink
  pending : List Nat
  flagged : Bool

/-- Helper: replace the link at index `i`. -/
def AsyncDispatcher.setLink (d : AsyncDispatcher) (i : Nat) (l : AsyncLink) :
    AsyncDispatcher :=
  { d with links := fun j => if j = i then l else d.links j }

/-- Modelled from the spec (4.5, step 2 of submission):
`trigger_bottom()` pushes the link onto the dispatcher's `pending` LIFO;
if the push transitioned the LIFO from empty to non-empty, it `set()`s
the dispatcher's event flag. -/
def AsyncDispatcher.trigger_bottom (d : AsyncDispatcher) (i : Nat) : AsyncDispatcher :=
  let wasEmpty := d.pending.isEmpty
  let d := { d with pending := i :: d.pending }
  if wasEmpty then { d with flagged := true } else d

/-- Modelled from the spec (4.5, submission protocol): `trigger`
(`set()` on the connection) test-and-sets the link's `activation_flag`;
if it was already set the submission coalesces into a no-op, otherwise
`trigger_bottom` runs. -/
def AsyncDispatcher.trigger (d : AsyncDispatcher) (i : Nat) : AsyncDispatcher :=
  if (d.links i).activation then d
  else (d.setLink i { d.links i with activation := true }).trigger_bottom i

/-- Modelled from the spec (4.5 disconnect semantics, and 3):
`disconnect` marks the link unregistered and removes it from the
dispatcher's registered chain, but does NOT remove it from the `pending`
chain.  The connection handle's reference is dropped; the dispatcher's
reference is dropped right away when the link is not sitting in the
pending chain (activation flag clear), and is otherwise left with the
pending chain for `dispatch()` to reclaim. -/
def AsyncDispatcher.disconnect (d : AsyncDispatcher) (i : Nat) : AsyncDispatcher :=
  let l := d.links i
  if l.registered then
    d.setLink i { l with
      registered := false
      refcount := l.refcount - (if l.activation then 1 else 2) }
  else d

/-- Result of one `dispatch()` call: ran to completion, or a user
callback threw and the exception propagated to the caller. -/
inductive DispatchResult where
  | ok
  | thrown
  deriving DecidableEq, Repr

/-- Modelled from the spec (4.5 `dispatch()`, its reentrancy paragraph,
and scenario 4 of section 8): process the chain swapped out of
`pending`.  For each link: clear its `activation_flag`; if it is still
registered, invoke its callback — when the callback throws, the
not-yet-consumed remainder of the chain is put back as `pending` (which
raises the event flag again, the push being empty→non-empty) and the
exception propagates; if the link is no longer registered, drop the
service reference the pending list was holding instead of invoking. -/
def AsyncDispatcher.dispatchChain (d : AsyncDispatcher) :
    List Nat → AsyncDispatcher × DispatchResult
  | [] => (d, DispatchResult.ok)
  | i :: rest =>
    let l := d.links i
    let d := d.setLink i { l with activation := false }
    let l := d.links i
    if l.registered then
      let d := d.setLink i { l with invoked := l.invoked + 1 }
      if l.throws then
        if rest.isEmpty then (d, DispatchResult.thrown)
        else ({ d with pending := rest, flagged := true }, DispatchResult.thrown)
      else d.dispatchChain rest
    else
      (d.setLink i { l with refcount := l.refcount - 1 }).dispatchChain rest

/-- Modelled from the spec (4.5 `dispatch()` step 1): atomically swap
the `pending` head with empty, then process the swapped chain. -/
def AsyncDispatcher.dispatch (d : AsyncDispatcher) : AsyncDispatcher × DispatchResult :=
  AsyncDispatcher.dispatchChain { d with pending := [] } d.pending

/-- Modelled from the spec (4.5 registration, and 3): `async_procedure`
appends a fresh registered link with a clear activation flag and
`refcount_ = 2`; `thr` says whether its user callback throws. -/
def AsyncDispatcher.async_procedure (d : AsyncDispatcher) (i : Nat) (thr : Bool) :
    AsyncDispatcher :=
  d.setLink i { registered := true, activation := false, throws := thr,
                refcount := 2, invoked := 0 }

/-- An empty dispatcher: no links (all slots hold an inert placeholder),
nothing pending, event flag clear. -/
def AsyncDispatcher.mk0 : AsyncDispatcher :=
  { links := fun _ => { registered := false, activation := false, throws := false,
                        refcount := 0, invoked := 0 }
    pending := []
    flagged := false }

/-! ## Concrete scenarios from the unit tests -/

/-- Scenario of `test_dispatch_throw` (testprogs/async-work.cc:110-151):
two links with throwing callbacks are registered and both triggered;
then the test clears the event flag (`event.clear()`) right before
dispatching. -/
def asyncTwoThrowing : AsyncDispatcher :=
  { (((AsyncDispatcher.mk0.async_procedure 0 true).async_procedure 1 true).trigger
      0).trigger 1 with flagged := false }

/-- Scenario with a single triggered throwing link and the event flag
cleared right before dispatching: the failing entry is the last of the
chain (the second half of `test_dispatch_throw`). -/
def asyncOneThrowing : AsyncDispatcher :=
  { (AsyncDispatcher.mk0.async_procedure 0 true).trigger 0 with flagged := false }

/-- Scenario of `test_disconnect_triggered`
(testprogs/async-work.cc:79-108): one link registered, triggered
(activation flag set, pushed onto pending), then disconnected before the
dispatcher runs. -/
def asyncTriggeredDisconnected : AsyncDispatcher :=
  ((AsyncDispatcher.mk0.async_procedure 0 false).trigger 0).disconnect 0

/-! # Theorems -/

/-- Claim C8: a freshly constructed `pipe_eventflag` with no waiters has
`flagged_ = 0`; a `set()` call leaves `flagged_ = 1` and writes no byte
to the pipe (because `waiting_ = 0`); a subsequent `clear()` leaves
`flagged_ = 0`. -/
theorem pipe_eventflag_basic_cycle :
    PipeEventflag.mk0.flagged = 0 ∧
    PipeEventflag.mk0.waiting = 0 ∧
    PipeEventflag.mk0.set.flagged = 1 ∧
    PipeEventflag.mk0.set.pipeBytes = PipeEventflag.mk0.pipeBytes ∧
    PipeEventflag.mk0.set.clear.flagged = 0 := by
  decide

/-- Invariant of the event-flag state machine: in every reachable state
the flag value is one of 0, 1, 2 and the pipe holds one byte exactly
when the flag is 2. -/
theorem ef_flag_inv (s : PipeEventflag) (h : EfReachable s) :
    (s.flagged = 0 ∨ s.flagged = 1 ∨ s.flagged = 2) ∧
      s.pipeBytes = (if s.flagged = 2 then 1 else 0) := by
  induction h with
  | init => decide
  | step _ hstep ih =>
    obtain ⟨hv, hp⟩ := ih
    cases hstep with
    | set =>
      unfold PipeEventflag.set
      rcases hv with h0 | h1 | h2 <;> simp_all <;> split <;> simp_all
    | clear =>
      unfold PipeEventflag.clear
      rcases hv with h0 | h1 | h2 <;> simp_all
    | start_waiting =>
      unfold PipeEventflag.start_waiting
      simp_all
    | stop_waiting =>
      unfold PipeEventflag.stop_waiting
      simp_all

/-- Claim C2: in every state of a `pipe_eventflag` reachable by
`set`/`clear` (and the waiter-count operations), exactly one byte is in
the control pipe iff `flagged_ = 2`; moreover `set()` changes the byte
count only when it moved the flag to 2 (and then by exactly one byte),
and `clear()` drains exactly one byte iff the value it swapped down from
was 2. -/
theorem pipe_eventflag_byte_iff_flag2 (s : PipeEventflag) (h : EfReachable s) :
    ((s.pipeBytes = 1 ↔ s.flagged = 2) ∧ s.pipeBytes ≤ 1) ∧
    (s.set.flagged ≠ 2 → s.set.pipeBytes = s.pipeBytes) ∧
    (s.set.flagged = 2 → s.flagged ≠ 2 → s.set.pipeBytes = s.pipeBytes + 1) ∧
    (s.flagged = 2 → s.clear.pipeBytes + 1 = s.pipeBytes) ∧
    (s.flagged ≠ 2 → s.clear.pipeBytes = s.pipeBytes) := by
  obtain ⟨hv, hp⟩ := ef_flag_inv s h
  unfold PipeEventflag.set PipeEventflag.clear
  rcases hv with h0 | h1 | h2 <;> simp_all <;> split <;> simp_all

/-- Witness for C2 at a concrete reachable state: a flag on which
`start_waiting` then `set` ran (so `flagged_ = 2` and one byte is in the
pipe). -/
theorem pipe_eventflag_byte_iff_flag2_witness :
    ((PipeEventflag.mk0.start_waiting.set.pipeBytes = 1 ↔
        PipeEventflag.mk0.start_waiting.set.flagged = 2) ∧
      PipeEventflag.mk0.start_waiting.set.pipeBytes ≤ 1) ∧
    (PipeEventflag.mk0.start_waiting.set.set.flagged ≠ 2 →
      PipeEventflag.mk0.start_waiting.set.set.pipeBytes =
        PipeEventflag.mk0.start_waiting.set.pipeBytes) ∧
    (PipeEventflag.mk0.start_waiting.set.set.flagged = 2 →
      PipeEventflag.mk0.start_waiting.set.flagged ≠ 2 →
      PipeEventflag.mk0.start_waiting.set.set.pipeBytes =
        PipeEventflag.mk0.start_waiting.set.pipeBytes + 1) ∧
    (PipeEventflag.mk0.start_waiting.set.flagged = 2 →
      PipeEventflag.mk0.start_waiting.set.clear.pipeBytes + 1 =
        PipeEventflag.mk0.start_waiting.set.pipeBytes) ∧
    (PipeEventflag.mk0.start_waiting.set.flagged ≠ 2 →
      PipeEventflag.mk0.start_waiting.set.clear.pipeBytes =
        PipeEventflag.mk0.start_waiting.set.pipeBytes) :=
  pipe_eventflag_byte_iff_flag2 PipeEventflag.mk0.start_waiting.set
    (EfReachable.step
      (EfReachable.step EfReachable.init (EfStep.start_waiting PipeEventflag.mk0))
      (EfStep.set PipeEventflag.mk0.start_waiting))

/-- Claim C3 (code bug): the retry loop of the pipe write in
`pipe_eventflag::set` and of the pipe read in `pipe_eventflag::clear`
repeats only on `EAGAIN`.  When the first attempt fails with `EINTR`
(the only transient failure a blocking pipe can produce) the loop stops
and surfaces the interrupted attempt even though the next attempt would
have succeeded, so the wake-up byte is lost; the loop the specification
describes retries past the `EINTR` and succeeds. -/
theorem eventflag_retry_stops_on_EINTR :
    retryWhileEAGAIN [SyscallOutcome.err Errno.EINTR, SyscallOutcome.ok] =
      some (SyscallOutcome.err Errno.EINTR) ∧
    retryWhileEINTRspec [SyscallOutcome.err Errno.EINTR, SyscallOutcome.ok] =
      some SyscallOutcome.ok ∧
    retryWhileEAGAIN [SyscallOutcome.err Errno.EAGAIN, SyscallOutcome.ok] =
      some SyscallOutcome.ok := by
  decide

/-- Claim C4: the deferred RW-lock scenario of
`src/testprogs/deferred.cc`: a simple `read_lock`/`read_unlock` pair and
a nested pair all return `needs_sync = false`; `write_lock_async` with
no readers returns true; `write_lock_async` while one reader holds the
lock returns false, and after that writer calls `write_unlock_async`,
the last `read_unlock` returns true. -/
theorem deferred_rwlock_scenario :
    (DeferredRwlock.mk0.read_lock.2 = false) ∧
    (DeferredRwlock.mk0.read_lock.1.read_unlock.2 = false) ∧
    (DeferredRwlock.mk0.read_lock.1.read_unlock.1.read_lock.2 = false) ∧
    (DeferredRwlock.mk0.read_lock.1.read_unlock.1.read_lock.1.read_lock.2 = false) ∧
    (DeferredRwlock.mk0.read_lock.1.read_unlock.1.read_lock.1.read_lock.1.read_unlock.2
      = false) ∧
    (DeferredRwlock.mk0.read_lock.1.read_unlock.1.read_lock.1.read_lock.1.read_unlock.1.read_unlock.2
      = false) ∧
    (DeferredRwlock.mk0.read_lock.1.read_unlock.1.read_lock.1.read_lock.1.read_unlock.1.read_unlock.1.write_lock_async.2
      = true) ∧
    (DeferredRwlock.mk0.read_lock.1.read_unlock.1.read_lock.1.read_lock.1.read_unlock.1.read_unlock.1.write_lock_async.1.sync_finished.read_lock.2
      = false) ∧
    (DeferredRwlock.mk0.read_lock.1.read_unlock.1.read_lock.1.read_lock.1.read_unlock.1.read_unlock.1.write_lock_async.1.sync_finished.read_lock.1.write_lock_async.2
      = false) ∧
    (DeferredRwlock.mk0.read_lock.1.read_unlock.1.read_lock.1.read_lock.1.read_unlock.1.read_unlock.1.write_lock_async.1.sync_finished.read_lock.1.write_lock_async.1.write_unlock_async.read_unlock.2
      = true) := by
  decide

/-- Claim C7: `ioready_callback::modify(evmask)` with a nonzero mask
applies `evmask | ioready_error | ioready_hangup` to the link — the
error and hangup bits are unconditionally ORed in — while
`modify(ioready_none)` applies exactly `ioready_none`. -/
theorem ioready_modify_forces_error_hangup (cb : IoreadyCallback) (m : Nat)
    (hatt : cb.attached = true) (hm : m ≠ ioready_none) :
    (cb.modify m).event_mask = (m ||| ioready_error ||| ioready_hangup) ∧
    (cb.modify ioready_none).event_mask = ioready_none := by
  have hm0 : ¬ (m = 0) := by simpa [ioready_none] using hm
  simp [IoreadyCallback.modify, hatt, ioready_none, hm0]

/-- Witness for C7: modifying an attached link to `ioready_input`
yields mask `0x301 = input | error | hangup`. -/
theorem ioready_modify_forces_error_hangup_witness :
    (IoreadyCallback.mk 0 true |>.modify ioready_input).event_mask =
      (ioready_input ||| ioready_error ||| ioready_hangup) ∧
    (IoreadyCallback.mk 0 true |>.modify ioready_none).event_mask = ioready_none :=
  ioready_modify_forces_error_hangup (IoreadyCallback.mk 0 true) ioready_input
    rfl (by decide)

/-- Claim C9: both `dispatch(timeout, max)` and `dispatch_pending(max)`
of the kqueue dispatcher silently clamp a `max` larger than 16 down to
16: at most 16 events are retrieved and processed in the call, and the
returned event count never exceeds 16, whatever `max` the caller
passes. -/
theorem kqueue_dispatch_clamped_to_16 (w : Option PipeEventflag) (avail max : Nat)
    (h : 16 < max) :
    kqueueClampMax max = 16 ∧
    (kqueue_dispatch w avail max).1 = Nat.min avail 16 ∧
    (∀ f : PipeEventflag,
      (kqueue_dispatch_pending (some f) avail max).map Prod.fst =
        some (Nat.min avail 16)) ∧
    (∀ (w2 : Option PipeEventflag) (a m : Nat), (kqueue_dispatch w2 a m).1 ≤ 16) := by
  refine ⟨?_, ?_, ?_, ?_⟩
  · simp [kqueueClampMax, h]
  · cases w <;> simp [kqueue_dispatch, kqueueClampMax, h]
  · intro f
    simp [kqueue_dispatch_pending, kqueueClampMax, h]
  · intro w2 a m
    cases w2 <;> simp [kqueue_dispatch, kqueueClampMax] <;> split <;> omega

/-- Witness for C9 at `max = 100` with 20 backend events ready: 16
events are reported. -/
theorem kqueue_dispatch_clamped_to_16_witness :
    kqueueClampMax 100 = 16 ∧
    (kqueue_dispatch none 20 100).1 = Nat.min 20 16 ∧
    (∀ f : PipeEventflag,
      (kqueue_dispatch_pending (some f) 20 100).map Prod.fst =
        some (Nat.min 20 16)) ∧
    (∀ (w2 : Option PipeEventflag) (a m : Nat), (kqueue_dispatch w2 a m).1 ≤ 16) :=
  kqueue_dispatch_clamped_to_16 none 20 100 (by decide)

/-- Claim C10: `dispatch_pending` unconditionally dereferences the
lazily created wakeup flag, so with a never-created wakeup flag (null
pointer) it crashes (`none`), for every `max` and backend state; with
the flag created it returns the event count and clears the flag.
`dispatch`, by contrast, guards the `evflag == 0` case and completes
without the flag. -/
theorem kqueue_dispatch_pending_requires_wakeup_flag :
    (∀ avail max : Nat, kqueue_dispatch_pending none avail max = none) ∧
    (∀ (f : PipeEventflag) (avail max : Nat),
      kqueue_dispatch_pending (some f) avail max =
        some (Nat.min avail (kqueueClampMax max), f.clear)) ∧
    (∀ avail max : Nat,
      kqueue_dispatch none avail max = (Nat.min avail (kqueueClampMax max), none)) := by
  refine ⟨fun avail max => rfl, fun f avail max => rfl, fun avail max => rfl⟩

/-- Helper: reading a link after `setLink`. -/
theorem setLink_links (d : AsyncDispatcher) (p : Nat) (l : AsyncLink) (i : Nat) :
    (d.setLink p l).links i = if i = p then l else d.links i := rfl

/-- Helper: `setLink` leaves the pending chain unchanged. -/
theorem setLink_pending (d : AsyncDispatcher) (p : Nat) (l : AsyncLink) :
    (d.setLink p l).pending = d.pending := rfl

/-- Helper: `setLink` leaves the event flag unchanged. -/
theorem setLink_flagged (d : AsyncDispatcher) (p : Nat) (l : AsyncLink) :
    (d.setLink p l).flagged = d.flagged := rfl
/-- Helper: one `dispatchChain` step on a registered, non-throwing link
invokes it (activation cleared, invocation counted) and continues. -/
theorem dispatchChain_cons_invoke (d : AsyncDispatcher) (p : Nat) (chain : List Nat)
    (h1 : (d.links p).registered = true) (h2 : (d.links p).throws = false) :
    d.dispatchChain (p :: chain) =
      ((d.setLink p { d.links p with activation := false }).setLink p
        { d.links p with activation := false, invoked := (d.links p).invoked + 1 }).dispatchChain chain := by
  simp only [AsyncDispatcher.dispatchChain, AsyncDispatcher.setLink]
  simp [h1, h2]

/-- Helper: one `dispatchChain` step on an unregistered link performs
the reclamation (activation cleared, pending-list reference dropped) and
continues without invoking. -/
theorem dispatchChain_cons_reclaim (d : AsyncDispatcher) (p : Nat) (chain : List Nat)
    (h1 : (d.links p).registered = false) :
    d.dispatchChain (p :: chain) =
      ((d.setLink p { d.links p with activation := false }).setLink p
        { d.links p with activation := false, refcount := (d.links p).refcount - 1 }).dispatchChain chain := by
  simp only [AsyncDispatcher.dispatchChain, AsyncDispatcher.setLink]
  simp [h1]

/-- Helper: one `dispatchChain` step on a registered, throwing link
invokes it and propagates the exception; a non-empty remainder becomes
the pending chain and raises the flag. -/
theorem dispatchChain_cons_throw (d : AsyncDispatcher) (p : Nat) (chain : List Nat)
    (h1 : (d.links p).registered = true) (h2 : (d.links p).throws = true) :
    d.dispatchChain (p :: chain) =
      (if chain.isEmpty
        then ((d.setLink p { d.links p with activation := false }).setLink p
          { d.links p with activation := false, invoked := (d.links p).invoked + 1 }, DispatchResult.thrown)
        else ({ (d.setLink p { d.links p with activation := false }).setLink p
          { d.links p with activation := false, invoked := (d.links p).invoked + 1 } with pending := chain, flagged := true }, DispatchResult.thrown)) := by
  simp only [AsyncDispatcher.dispatchChain, AsyncDispatcher.setLink]
  simp [h1, h2]
/-- Helper for C5: processing a chain whose entries before the first
throwing registered link are registered and non-throwing ends with the
exception propagating; the not-yet-consumed remainder becomes the
pending chain and, when non-empty, the event flag is raised; an empty
remainder leaves the pending chain and the flag as they were. -/
theorem dispatchChain_throw (f : Nat) (rest : List Nat) :
    ∀ (pre : List Nat) (d : AsyncDispatcher),
      (∀ i ∈ pre, (d.links i).registered = true ∧ (d.links i).throws = false) →
      (d.links f).registered = true → (d.links f).throws = true →
      (d.dispatchChain (pre ++ f :: rest)).2 = DispatchResult.thrown ∧
      (d.dispatchChain (pre ++ f :: rest)).1.pending =
        (if rest.isEmpty then d.pending else rest) ∧
      (d.dispatchChain (pre ++ f :: rest)).1.flagged =
        (if rest.isEmpty then d.flagged else true) := by
  intro pre
  induction pre with
  | nil =>
    intro d _ hreg hthr
    rw [List.nil_append, dispatchChain_cons_throw d f rest hreg hthr]
    split <;> simp [AsyncDispatcher.setLink]
  | cons p pre' ih =>
    intro d hpre hreg hthr
    obtain ⟨hpreg, hpthr⟩ := hpre p (List.mem_cons_self p pre')
    have hfp : f ≠ p := by
      intro e
      rw [e, hpthr] at hthr
      exact Bool.false_ne_true hthr
    rw [List.cons_append, dispatchChain_cons_invoke d p (pre' ++ f :: rest) hpreg hpthr]
    have hmain := ih ((d.setLink p { d.links p with activation := false }).setLink p
        { d.links p with activation := false, invoked := (d.links p).invoked + 1 })
      (by
        intro i hi
        obtain ⟨ha, hb⟩ := hpre i (List.mem_cons_of_mem p hi)
        by_cases hip : i = p
        · subst hip
          simp [setLink_links, hpreg, hpthr]
        · simp [setLink_links, hip, ha, hb])
      (by simp [setLink_links, hfp, hreg])
      (by simp [setLink_links, hfp, hthr])
    simpa [setLink_pending, setLink_flagged] using hmain
/-- Helper for C6: processing a chain that contains no registered
throwing link completes, leaves the pending list as it was, and treats
every occurrence of an unregistered link `i` by reclamation: `i` is
never invoked and loses one reference per occurrence. -/
theorem dispatchChain_reclaim (i : Nat) :
    ∀ (chain : List Nat) (d : AsyncDispatcher),
      (d.links i).registered = false →
      (∀ j ∈ chain, (d.links j).registered = true → (d.links j).throws = false) →
      (d.dispatchChain chain).2 = DispatchResult.ok ∧
      (d.dispatchChain chain).1.pending = d.pending ∧
      ((d.dispatchChain chain).1.links i).invoked = (d.links i).invoked ∧
      ((d.dispatchChain chain).1.links i).refcount =
        (d.links i).refcount - chain.count i := by
  intro chain
  induction chain with
  | nil =>
    intro d h1 h2
    simp [AsyncDispatcher.dispatchChain]
  | cons j rest ih =>
    intro d h1 h2
    by_cases hjr : (d.links j).registered = true
    · have hjt : (d.links j).throws = false := h2 j (List.mem_cons_self j rest) hjr
      have hij : ¬ (i = j) := by
        intro e
        rw [← e, h1] at hjr
        exact Bool.false_ne_true hjr
      rw [dispatchChain_cons_invoke d j rest hjr hjt]
      have hmain := ih ((d.setLink j { d.links j with activation := false }).setLink j
          { d.links j with activation := false, invoked := (d.links j).invoked + 1 })
        (by simp [setLink_links, hij, h1])
        (by
          intro k hk
          by_cases hkj : k = j
          · subst hkj
            simp [setLink_links, hjt]
          · simp only [setLink_links, if_neg hkj]
            exact h2 k (List.mem_cons_of_mem j hk))
      rw [List.count_cons]
      simp only [setLink_links, if_neg hij, setLink_pending] at hmain
      rcases hmain with ⟨m1, m2, m3, m4⟩
      refine ⟨m1, m2, m3, ?_⟩
      rw [m4]
      simp [Ne.symm hij]
    · have hjr' : (d.links j).registered = false := by
        cases hb : (d.links j).registered
        · rfl
        · exact absurd hb hjr
      rw [dispatchChain_cons_reclaim d j rest hjr']
      by_cases hij : i = j
      · subst hij
        have hmain := ih ((d.setLink i { d.links i with activation := false }).setLink i
            { d.links i with activation := false, refcount := (d.links i).refcount - 1 })
          (by simp [setLink_links, hjr'])
          (by
            intro k hk
            by_cases hki : k = i
            · subst hki
              simp [setLink_links, hjr']
            · simp only [setLink_links, if_neg hki]
              exact h2 k (List.mem_cons_of_mem i hk))
        rw [List.count_cons]
        simp only [setLink_links, if_pos rfl, setLink_pending] at hmain
        rcases hmain with ⟨m1, m2, m3, m4⟩
        refine ⟨m1, m2, by simpa using m3, ?_⟩
        rw [m4]
        simp
        omega
      · have hmain := ih ((d.setLink j { d.links j with activation := false }).setLink j
            { d.links j with activation := false, refcount := (d.links j).refcount - 1 })
          (by simp [setLink_links, hij, h1])
          (by
            intro k hk
            by_cases hkj : k = j
            · subst hkj
              simp [setLink_links, hjr']
            · simp only [setLink_links, if_neg hkj]
              exact h2 k (List.mem_cons_of_mem j hk))
        rw [List.count_cons]
        simp only [setLink_links, if_neg hij, setLink_pending] at hmain
        rcases hmain with ⟨m1, m2, m3, m4⟩
        refine ⟨m1, m2, m3, ?_⟩
        rw [m4]
        simp [Ne.symm hij]
/-- Claim C5 (amended): if a user callback invoked from the async work
queue's `dispatch()` throws, the exception propagates to the caller;
the entries consumed before the failing one are gone from the pending
chain (so the next `dispatch()` does not invoke them again) while
exactly the not-yet-consumed entries remain pending, and the
dispatcher's event flag is re-raised whenever that remainder is
non-empty; when the failing entry was the last of the chain, the flag
is left as it was. -/
theorem async_dispatch_throw_behavior (d : AsyncDispatcher) (pre : List Nat) (f : Nat)
    (rest : List Nat) (hpend : d.pending = pre ++ f :: rest)
    (hpre : ∀ i ∈ pre, (d.links i).registered = true ∧ (d.links i).throws = false)
    (hreg : (d.links f).registered = true) (hthr : (d.links f).throws = true) :
    (d.dispatch).2 = DispatchResult.thrown ∧
    (d.dispatch).1.pending = rest ∧
    (rest ≠ [] → (d.dispatch).1.flagged = true) ∧
    (rest = [] → (d.dispatch).1.flagged = d.flagged) := by
  unfold AsyncDispatcher.dispatch
  rw [hpend]
  obtain ⟨h1, h2, h3⟩ :=
    dispatchChain_throw f rest pre { d with pending := [] } hpre hreg hthr
  refine ⟨h1, ?_, ?_, ?_⟩
  · rw [h2]
    cases rest <;> simp
  · intro hne
    rw [h3]
    simp [hne]
  · intro he
    subst he
    rw [h3]
    simp

/-- Counterexample to C5 as stated: a single triggered link whose
callback throws, with the event flag cleared just before dispatching
(the second half of `test_dispatch_throw`).  `dispatch()` consumes the
entry, the callback throws and the exception propagates — but the event
flag is NOT re-raised (no entries remain pending), contradicting an
unconditional re-raise before propagation. -/
theorem async_throw_on_last_leaves_flag_clear :
    asyncOneThrowing.flagged = false ∧
    (asyncOneThrowing.dispatch).2 = DispatchResult.thrown ∧
    (asyncOneThrowing.dispatch).1.pending = [] ∧
    (asyncOneThrowing.dispatch).1.flagged = false := by
  decide

/-- Witness for C5 on the `test_dispatch_throw` scenario: two throwing
links triggered; the first `dispatch()` throws after one invocation,
leaves the other entry pending and re-raises the event flag. -/
theorem async_dispatch_throw_behavior_witness :
    (asyncTwoThrowing.dispatch).2 = DispatchResult.thrown ∧
    (asyncTwoThrowing.dispatch).1.pending = [0] ∧
    ([0] ≠ ([] : List Nat) → (asyncTwoThrowing.dispatch).1.flagged = true) ∧
    ([0] = ([] : List Nat) → (asyncTwoThrowing.dispatch).1.flagged =
      asyncTwoThrowing.flagged) :=
  async_dispatch_throw_behavior asyncTwoThrowing [] 1 [0] (by decide) (by decide)
    (by decide) (by decide)

/-- Claim C6: for every async-work link that sits in the pending chain
while no longer registered (triggered, then disconnected before the
dispatcher ran), `dispatch()` invokes the link's callback zero times,
instead performs the reclamation — dropping the pending-list reference,
one per occurrence — and drains the pending chain to empty (no link of
the chain that is still registered throws, as in the disconnect
tests). -/
theorem async_disconnected_link_reclaimed (d : AsyncDispatcher) (i : Nat)
    (hunreg : (d.links i).registered = false)
    (hsafe : ∀ j ∈ d.pending, (d.links j).registered = true → (d.links j).throws = false) :
    (d.dispatch).2 = DispatchResult.ok ∧
    (d.dispatch).1.pending = [] ∧
    ((d.dispatch).1.links i).invoked = (d.links i).invoked ∧
    ((d.dispatch).1.links i).refcount = (d.links i).refcount - d.pending.count i := by
  unfold AsyncDispatcher.dispatch
  simpa using dispatchChain_reclaim i d.pending { d with pending := [] } hunreg hsafe

/-- Witness for C6 on the `test_disconnect_triggered` scenario: one
link registered, triggered and disconnected; `dispatch()` completes,
drains the pending chain, never invokes the callback and drops the
pending-list reference. -/
theorem async_disconnected_link_reclaimed_witness :
    (asyncTriggeredDisconnected.dispatch).2 = DispatchResult.ok ∧
    (asyncTriggeredDisconnected.dispatch).1.pending = [] ∧
    ((asyncTriggeredDisconnected.dispatch).1.links 0).invoked =
      (asyncTriggeredDisconnected.links 0).invoked ∧
    ((asyncTriggeredDisconnected.dispatch).1.links 0).refcount =
      (asyncTriggeredDisconnected.links 0).refcount -
        asyncTriggeredDisconnected.pending.count 0 :=
  async_disconnected_link_reclaimed asyncTriggeredDisconnected 0 (by decide) (by decide)
